import Mathlib

/-!
Shallow embedding of the godis protocol client vendored in this repository
(src/vendor/github.com/piaohao/godis/connection.go and redis.go).

Network effects are modelled by an explicit oracle environment `Env`: each
kind of socket interaction (dial, deadline set, buffered command write,
flush, reply read) consumes the head of the corresponding oracle list, and
every socket-touching step is recorded in an event trace, so that claims of
the form "no network I/O is performed" become statements about the trace.
Go functions returning `(value, error)` are modelled with `Res`; an
unchecked Go type assertion that fails, or a method call through a nil
pointer, is modelled by the `Res.panicked` outcome.
-/

namespace Godis

/-- Error taxonomy of the library: ConnectError and DataError. -/
inductive GoError where
  | connect (msg : String)
  | data (msg : String)
deriving DecidableEq, Repr

/-- Decoded reply values, the dynamic values the Go code stores in an
interface. The decoder produces strings, byte slices, int64, nested arrays
or Go nil; `byteV` represents a single Go byte value, which only matters for
the element casts inside the bulk accessor. -/
inductive GoVal where
  | str (s : String)
  | bytes (bs : List Nat)
  | int64 (i : Int)
  | byteV (b : Nat)
  | arr (vs : List GoVal)
  | nil

/-- Outcome of a Go call returning (value, error): success, a non-nil error,
or a runtime panic (failed unchecked type assertion or nil dereference). -/
inductive Res (α : Type) where
  | ok (a : α)
  | err (e : GoError)
  | panicked
deriving DecidableEq, Repr

/-- Socket-touching operations, recorded as an observable trace. -/
inductive NetEvent where
  | dial
  | setDeadline
  | encodeWrite (cmd : String) (args : List (List Nat))
  | flushWrite
  | readReply
deriving DecidableEq, Repr

/-- Oracle environment: the results the network hands back, one list per
kind of interaction, consumed from the front. -/
structure Env where
  dials : List (Except String Nat)
  deadlines : List (Option String)
  sends : List (Option GoError)
  flushes : List (Option String)
  reads : List (Except GoError GoVal)

/-- Pop the head of an oracle list, with a default when the trace is
exhausted (the environment is then unspecified; theorems always supply
enough oracle entries). -/
def takeD {α : Type} (l : List α) (d : α) : α × List α :=
  match l with
  | [] => (d, [])
  | a :: t => (a, t)

/-- Connection state, mirroring the Go struct field for field; the socket
and the protocol codec streams are abstract handles. -/
structure connection where
  host : String
  port : Int
  connectionTimeout : Int
  soTimeout : Int
  socket : Option Nat
  protocol : Option Nat
  broken : Bool
  pipelinedCommands : Int

/-- Result of one stateful connection operation: the Go return value, the
updated connection, the remaining oracle environment, and the trace of
socket-touching events the operation performed. -/
structure Step (α : Type) where
  res : Res α
  conn : connection
  env : Env
  events : List NetEvent

/-- Modelled from the spec: the file defining the library default constants
is not under src; section 6 lists host, port and timeout configuration and
the plugin configuration defaults to localhost:6379. -/
def defaultHost : String := "localhost"

/-- Modelled from the spec: default port constant, see `defaultHost`. -/
def defaultPort : Int := 6379

/-- Modelled from the spec: default timeout constant, see `defaultHost`. -/
def defaultTimeout : Int := 5000000000

/-- newConnection from connection.go lines 22-42: zero-valued configuration
is replaced by defaults; the remaining fields start at their Go zero
values. -/
def newConnection (host : String) (port : Int) (connectionTimeout soTimeout : Int) : connection :=
  let host := if host = "" then defaultHost else host
  let port := if port = 0 then defaultPort else port
  let connectionTimeout := if connectionTimeout = 0 then defaultTimeout else connectionTimeout
  let soTimeout := if soTimeout = 0 then defaultTimeout else soTimeout
  { host := host
    port := port
    connectionTimeout := connectionTimeout
    soTimeout := soTimeout
    socket := none
    protocol := none
    broken := false
    pipelinedCommands := 0 }

/-- isConnected from connection.go lines 305-310. -/
def connection.isConnected (c : connection) : Bool :=
  c.socket.isSome

/-- connect from connection.go lines 286-303: no-op when already connected;
otherwise dial, set the read deadline, then install the socket and fresh
codec streams. On a dial or deadline failure nothing is installed. -/
def connection.connect (c : connection) (e : Env) : Step Unit :=
  if connection.isConnected c then ⟨.ok (), c, e, []⟩
  else
    match takeD e.dials (Except.error "unspecified dial result") with
    | (Except.error msg, ds) =>
        ⟨.err (.connect msg), c, { e with dials := ds }, [NetEvent.dial]⟩
    | (Except.ok sock, ds) =>
        match takeD e.deadlines none with
        | (none, dl) =>
            ⟨.ok (),
              { c with socket := some sock, protocol := some sock },
              { e with dials := ds, deadlines := dl },
              [NetEvent.dial, NetEvent.setDeadline]⟩
        | (some msg, dl) =>
            ⟨.err (.connect msg), c,
              { e with dials := ds, deadlines := dl },
              [NetEvent.dial, NetEvent.setDeadline]⟩

/-- sendCommand from connection.go lines 76-86: lazy connect, then the codec
write; the pipelined counter is incremented only after both succeed.
Calling the codec through a nil protocol pointer panics. -/
def connection.sendCommand (cmd : String) (args : List (List Nat)) (c : connection) (e : Env) : Step Unit :=
  match connection.connect c e with
  | ⟨.err er, c1, e1, evs⟩ => ⟨.err er, c1, e1, evs⟩
  | ⟨.panicked, c1, e1, evs⟩ => ⟨.panicked, c1, e1, evs⟩
  | ⟨.ok _, c1, e1, evs⟩ =>
      match c1.protocol with
      | none => ⟨.panicked, c1, e1, evs⟩
      | some _ =>
          match takeD e1.sends (some (GoError.connect "unspecified send result")) with
          | (some er, ss) =>
              ⟨.err er, c1, { e1 with sends := ss },
                evs ++ [NetEvent.encodeWrite cmd args]⟩
          | (none, ss) =>
              ⟨.ok (),
                { c1 with pipelinedCommands := c1.pipelinedCommands + 1 },
                { e1 with sends := ss },
                evs ++ [NetEvent.encodeWrite cmd args]⟩

/-- flush from connection.go lines 277-284: force the buffered writes out; a
failure marks the connection broken and surfaces a connection error. The
broken flag is not consulted. -/
def connection.flush (c : connection) (e : Env) : Step Unit :=
  match c.protocol with
  | none => ⟨.panicked, c, e, []⟩
  | some _ =>
      match takeD e.flushes (some "unspecified flush result") with
      | (none, fl) =>
          ⟨.ok (), c, { e with flushes := fl }, [NetEvent.flushWrite]⟩
      | (some msg, fl) =>
          ⟨.err (.connect msg), { c with broken := true },
            { e with flushes := fl }, [NetEvent.flushWrite]⟩

/-- readProtocolWithCheckingBroken from connection.go lines 100-113: refuse
immediately when broken; otherwise read one reply, and mark the connection
broken exactly when the read fails with a ConnectError. -/
def connection.readProtocolWithCheckingBroken (c : connection) (e : Env) : Step GoVal :=
  if c.broken then
    ⟨.err (.connect "attempting to read from a broken connection"), c, e, []⟩
  else
    match c.protocol with
    | none => ⟨.panicked, c, e, []⟩
    | some _ =>
        match takeD e.reads (Except.error (GoError.connect "unspecified read result")) with
        | (Except.ok v, rs) =>
            ⟨.ok v, c, { e with reads := rs }, [NetEvent.readReply]⟩
        | (Except.error (GoError.connect m), rs) =>
            ⟨.err (.connect m), { c with broken := true },
              { e with reads := rs }, [NetEvent.readReply]⟩
        | (Except.error (GoError.data m), rs) =>
            ⟨.err (.data m), c, { e with reads := rs }, [NetEvent.readReply]⟩

/-- getOne from connection.go lines 248-254: flush, decrement the pipelined
counter unconditionally, then read one reply. -/
def connection.getOne (c : connection) (e : Env) : Step GoVal :=
  match connection.flush c e with
  | ⟨.err er, c1, e1, evs⟩ => ⟨.err er, c1, e1, evs⟩
  | ⟨.panicked, c1, e1, evs⟩ => ⟨.panicked, c1, e1, evs⟩
  | ⟨.ok _, c1, e1, evs⟩ =>
      match connection.readProtocolWithCheckingBroken
          { c1 with pipelinedCommands := c1.pipelinedCommands - 1 } e1 with
      | ⟨r, c2, e2, evs2⟩ => ⟨r, c2, e2, evs ++ evs2⟩

/-- One Go loop iteration appends the collected entry (a reply or its
inline error) in front of the rest of the drain and accumulates the event
trace of the iteration before the trace of the rest. -/
def stepCons (entry : Except GoError GoVal) (evs : List NetEvent)
    (s : Step (List (Except GoError GoVal))) : Step (List (Except GoError GoVal)) :=
  match s with
  | ⟨.ok rest, c2, e2, evs2⟩ => ⟨.ok (entry :: rest), c2, e2, evs ++ evs2⟩
  | ⟨.err er2, c2, e2, evs2⟩ => ⟨.err er2, c2, e2, evs ++ evs2⟩
  | ⟨.panicked, c2, e2, evs2⟩ => ⟨.panicked, c2, e2, evs ++ evs2⟩

/-- Loop body of getAll, connection.go lines 264-273, as fuel recursion: the
guard is re-checked before every iteration, each iteration reads one reply
(capturing an error inline in the collected list) and then decrements the
counter. The read never changes the counter, so each iteration lowers it by
exactly one and a fuel of (pipelinedCommands - num).toNat covers every
iteration the Go loop performs. -/
def connection.getAllLoop (fuel : Nat) (num : Int) (c : connection) (e : Env) : Step (List (Except GoError GoVal)) :=
  match fuel with
  | 0 => ⟨.ok [], c, e, []⟩
  | Nat.succ f =>
      if num < c.pipelinedCommands then
        match connection.readProtocolWithCheckingBroken c e with
        | ⟨.panicked, c1, e1, evs⟩ => ⟨.panicked, c1, e1, evs⟩
        | ⟨.ok v, c1, e1, evs⟩ =>
            stepCons (Except.ok v) evs
              (connection.getAllLoop f num
                { c1 with pipelinedCommands := c1.pipelinedCommands - 1 } e1)
        | ⟨.err er, c1, e1, evs⟩ =>
            stepCons (Except.error er) evs
              (connection.getAllLoop f num
                { c1 with pipelinedCommands := c1.pipelinedCommands - 1 } e1)
      else ⟨.ok [], c, e, []⟩

/-- Prepend the events of an earlier phase of an operation to the trace of
its later phase. -/
def withEvents {α : Type} (evs : List NetEvent) (s : Step α) : Step α :=
  ⟨s.res, s.conn, s.env, evs ++ s.events⟩

/-- getAll from connection.go lines 256-275: optional expected floor
(default 0), one flush, then drain replies while the counter is above the
floor, appending each reply or its error in submission order. -/
def connection.getAll (expect : Option Int) (c : connection) (e : Env) : Step (List (Except GoError GoVal)) :=
  let num := (expect.getD 0)
  match connection.flush c e with
  | ⟨.err er, c1, e1, evs⟩ => ⟨.err er, c1, e1, evs⟩
  | ⟨.panicked, c1, e1, evs⟩ => ⟨.panicked, c1, e1, evs⟩
  | ⟨.ok _, c1, e1, evs⟩ =>
      withEvents evs (connection.getAllLoop (c1.pipelinedCommands - num).toNat num c1 e1)

/-- Byte decoding of a Go string conversion string(bs). -/
def stringOfBytes (bs : List Nat) : String :=
  String.mk (bs.map Char.ofNat)

/-- Byte encoding of a Go string conversion to a byte slice. -/
def bytesOfString (s : String) : List Nat :=
  s.data.map Char.toNat

/-- Message text of newDataError in getStatusCodeReply; the Go code formats
the offending reply value with fmt.Sprintf. -/
def dataErrMsg (v : GoVal) : String :=
  match v with
  | GoVal.int64 i => "data error:" ++ toString i
  | _ => "data error: reply shape mismatch"

/-- Element-wise Go type assertion i.(byte) over a decoded array. -/
def castBytes : List GoVal → Option (List Nat)
  | [] => some []
  | GoVal.byteV b :: t => (castBytes t).map (fun r => b :: r)
  | _ => none

/-- Element-wise Go type assertion res.([]byte) over a decoded array. -/
def castBytesArr : List GoVal → Option (List (List Nat))
  | [] => some []
  | GoVal.bytes bs :: t => (castBytesArr t).map (fun r => bs :: r)
  | _ => none

/-- Element-wise Go type assertion item.(int64) over a decoded array. -/
def castInts : List GoVal → Option (List Int)
  | [] => some []
  | GoVal.int64 i :: t => (castInts t).map (fun r => i :: r)
  | _ => none

/-- getStatusCodeReply from connection.go lines 115-131: nil maps to the
empty string, strings and byte slices are accepted, everything else is a
DataError. -/
def connection.getStatusCodeReply (c : connection) (e : Env) : Step String :=
  match connection.getOne c e with
  | ⟨.err er, c1, e1, evs⟩ => ⟨.err er, c1, e1, evs⟩
  | ⟨.panicked, c1, e1, evs⟩ => ⟨.panicked, c1, e1, evs⟩
  | ⟨.ok v, c1, e1, evs⟩ =>
      match v with
      | GoVal.nil => ⟨.ok "", c1, e1, evs⟩
      | GoVal.str t => ⟨.ok t, c1, e1, evs⟩
      | GoVal.bytes b => ⟨.ok (stringOfBytes b), c1, e1, evs⟩
      | w => ⟨.err (.data (dataErrMsg w)), c1, e1, evs⟩

/-- getBinaryBulkReply from connection.go lines 141-160: nil maps to the
empty byte slice; a byte slice is returned as is; an interface array is
rebuilt by per-element byte assertions; any other shape falls through to
the unchecked assertion reply.([]byte), which panics. -/
def connection.getBinaryBulkReply (c : connection) (e : Env) : Step (List Nat) :=
  match connection.getOne c e with
  | ⟨.err er, c1, e1, evs⟩ => ⟨.err er, c1, e1, evs⟩
  | ⟨.panicked, c1, e1, evs⟩ => ⟨.panicked, c1, e1, evs⟩
  | ⟨.ok v, c1, e1, evs⟩ =>
      match v with
      | GoVal.nil => ⟨.ok [], c1, e1, evs⟩
      | GoVal.bytes bs => ⟨.ok bs, c1, e1, evs⟩
      | GoVal.arr vs =>
          match castBytes vs with
          | some bs => ⟨.ok bs, c1, e1, evs⟩
          | none => ⟨.panicked, c1, e1, evs⟩
      | _ => ⟨.panicked, c1, e1, evs⟩

/-- getBulkReply from connection.go lines 133-139: the byte bulk reply
converted to a string. -/
def connection.getBulkReply (c : connection) (e : Env) : Step String :=
  match connection.getBinaryBulkReply c e with
  | ⟨.ok bs, c1, e1, evs⟩ => ⟨.ok (stringOfBytes bs), c1, e1, evs⟩
  | ⟨.err er, c1, e1, evs⟩ => ⟨.err er, c1, e1, evs⟩
  | ⟨.panicked, c1, e1, evs⟩ => ⟨.panicked, c1, e1, evs⟩

/-- getIntegerReply from connection.go lines 162-175: nil maps to 0, an
int64 is returned, and any other shape silently yields -1 with no error. -/
def connection.getIntegerReply (c : connection) (e : Env) : Step Int :=
  match connection.getOne c e with
  | ⟨.err er, c1, e1, evs⟩ => ⟨.err er, c1, e1, evs⟩
  | ⟨.panicked, c1, e1, evs⟩ => ⟨.panicked, c1, e1, evs⟩
  | ⟨.ok v, c1, e1, evs⟩ =>
      match v with
      | GoVal.nil => ⟨.ok 0, c1, e1, evs⟩
      | GoVal.int64 i => ⟨.ok i, c1, e1, evs⟩
      | _ => ⟨.ok (-1), c1, e1, evs⟩

/-- getBinaryMultiBulkReply from connection.go lines 189-203: nil maps to
the empty list; otherwise the unchecked assertions reply.([]interface) and
res.([]byte) panic on any mismatched shape. -/
def connection.getBinaryMultiBulkReply (c : connection) (e : Env) : Step (List (List Nat)) :=
  match connection.getOne c e with
  | ⟨.err er, c1, e1, evs⟩ => ⟨.err er, c1, e1, evs⟩
  | ⟨.panicked, c1, e1, evs⟩ => ⟨.panicked, c1, e1, evs⟩
  | ⟨.ok v, c1, e1, evs⟩ =>
      match v with
      | GoVal.nil => ⟨.ok [], c1, e1, evs⟩
      | GoVal.arr vs =>
          match castBytesArr vs with
          | some bss => ⟨.ok bss, c1, e1, evs⟩
          | none => ⟨.panicked, c1, e1, evs⟩
      | _ => ⟨.panicked, c1, e1, evs⟩

/-- getIntegerMultiBulkReply from connection.go lines 228-246: nil maps to
the empty list, an interface array is rebuilt by per-element int64
assertions, and the default branch asserts reply.([]int64), which always
panics because the decoder never produces that type. -/
def connection.getIntegerMultiBulkReply (c : connection) (e : Env) : Step (List Int) :=
  match connection.getOne c e with
  | ⟨.err er, c1, e1, evs⟩ => ⟨.err er, c1, e1, evs⟩
  | ⟨.panicked, c1, e1, evs⟩ => ⟨.panicked, c1, e1, evs⟩
  | ⟨.ok v, c1, e1, evs⟩ =>
      match v with
      | GoVal.nil => ⟨.ok [], c1, e1, evs⟩
      | GoVal.arr vs =>
          match castInts vs with
          | some is => ⟨.ok is, c1, e1, evs⟩
          | none => ⟨.panicked, c1, e1, evs⟩
      | _ => ⟨.panicked, c1, e1, evs⟩

/-- getUnflushedObjectMultiBulkReply from connection.go lines 205-214. -/
def connection.getUnflushedObjectMultiBulkReply (c : connection) (e : Env) : Step (List GoVal) :=
  match connection.readProtocolWithCheckingBroken c e with
  | ⟨.err er, c1, e1, evs⟩ => ⟨.err er, c1, e1, evs⟩
  | ⟨.panicked, c1, e1, evs⟩ => ⟨.panicked, c1, e1, evs⟩
  | ⟨.ok v, c1, e1, evs⟩ =>
      match v with
      | GoVal.nil => ⟨.ok [], c1, e1, evs⟩
      | GoVal.arr vs => ⟨.ok vs, c1, e1, evs⟩
      | _ => ⟨.panicked, c1, e1, evs⟩

/-- getRawObjectMultiBulkReply from connection.go lines 216-218. -/
def connection.getRawObjectMultiBulkReply (c : connection) (e : Env) : Step (List GoVal) :=
  connection.getUnflushedObjectMultiBulkReply c e

/-- getObjectMultiBulkReply from connection.go lines 220-226: flush,
decrement unconditionally, read the nested reply. -/
def connection.getObjectMultiBulkReply (c : connection) (e : Env) : Step (List GoVal) :=
  match connection.flush c e with
  | ⟨.err er, c1, e1, evs⟩ => ⟨.err er, c1, e1, evs⟩
  | ⟨.panicked, c1, e1, evs⟩ => ⟨.panicked, c1, e1, evs⟩
  | ⟨.ok _, c1, e1, evs⟩ =>
      match connection.getRawObjectMultiBulkReply
          { c1 with pipelinedCommands := c1.pipelinedCommands - 1 } e1 with
      | ⟨r, c2, e2, evs2⟩ => ⟨r, c2, e2, evs ++ evs2⟩

/-- close from connection.go lines 312-319: release the socket once; note
the protocol streams are left in place. The close error of the socket is
not modelled. -/
def connection.close (c : connection) : connection :=
  { c with socket := none }

/-- Modelled from the spec: pipeline.go is not under src. Section 3 says a
Pipeline records an ordered queue of PendingResponse entries; redis.go only
inspects the length of pipelinedResponses. -/
structure Pipeline where
  pipelinedResponses : List Unit

/-- Modelled from the spec: client.go is not under src. Section 3 says the
Client owns exactly one Connection and holds the in-multi flag; the fields
redis.go reads are isInMulti, broken and the connection itself. -/
structure Client where
  connection : connection
  isInMulti : Bool

/-- Modelled from the spec: the Client broken flag redis.go consults in
Close is the broken flag of its Connection (section 3, section 4.6). -/
def Client.broken (cl : Client) : Bool :=
  cl.connection.broken

/-- Modelled from the spec: client.close truly closes the socket of its
Connection (section 4.6). -/
def Client.close (cl : Client) : Client :=
  { cl with connection := connection.close cl.connection }

/-- Modelled from the spec: the per-command builders of client.go serialize
the command and send it through the Connection without reading (section
4.3 two-phase contract). SET carries the key and the value. -/
def Client.set (cl : Client) (key value : String) (e : Env) : Step Unit :=
  connection.sendCommand "SET" [bytesOfString key, bytesOfString value] cl.connection e

/-- Modelled from the spec: GET command builder, see `Client.set`. -/
def Client.get (cl : Client) (key : String) (e : Env) : Step Unit :=
  connection.sendCommand "GET" [bytesOfString key] cl.connection e

/-- Modelled from the spec: INCR command builder, see `Client.set`. -/
def Client.incr (cl : Client) (key : String) (e : Env) : Step Unit :=
  connection.sendCommand "INCR" [bytesOfString key] cl.connection e

/-- Modelled from the spec: HSET command builder, see `Client.set`. -/
def Client.hset (cl : Client) (key field value : String) (e : Env) : Step Unit :=
  connection.sendCommand "HSET" [bytesOfString key, bytesOfString field, bytesOfString value] cl.connection e

/-- Redis from redis.go lines 19-27: wraps a client pointer, an optional
pipeline, an optional transaction and an optional pool back-reference. The
mutex and the activeTime bookkeeping are not modelled (single caller). -/
structure Redis where
  client : Option Client
  pipeline : Option Pipeline
  transaction : Option Unit
  dataSource : Option Unit

/-- Result of one stateful Redis method call. -/
structure RStep (α : Type) where
  res : Res α
  redis : Redis
  env : Env
  events : List NetEvent

/-- checkIsInMultiOrPipeline from redis.go lines 83-91: reject a simple
command with a DataError while in multi or while the pipeline holds unread
responses. Reading isInMulti through a nil client pointer panics. -/
def Redis.checkIsInMultiOrPipeline (r : Redis) : Res Unit :=
  match r.client with
  | none => .panicked
  | some cl =>
      if cl.isInMulti then
        .err (.data "cannot use Redis when in Multi. Please use Transaction or reset redis state")
      else
        match r.pipeline with
        | some p =>
            if 0 < p.pipelinedResponses.length then
              .err (.data "cannot use Redis when in Pipeline. Please use Pipeline or reset redis state")
            else .ok ()
        | none => .ok ()

/-- Helper threading a mutated connection back into the Redis value. -/
def Redis.withConn (r : Redis) (cl : Client) (c : connection) : Redis :=
  { r with client := some { cl with connection := c } }

/-- Set from redis.go lines 97-107: mode check, then the SET builder, then
the status accessor. -/
def Redis.Set (r : Redis) (key value : String) (e : Env) : RStep String :=
  match Redis.checkIsInMultiOrPipeline r with
  | .err er => ⟨.err er, r, e, []⟩
  | .panicked => ⟨.panicked, r, e, []⟩
  | .ok _ =>
      match r.client with
      | none => ⟨.panicked, r, e, []⟩
      | some cl =>
          match Client.set cl key value e with
          | ⟨.err er, c1, e1, evs⟩ => ⟨.err er, Redis.withConn r cl c1, e1, evs⟩
          | ⟨.panicked, c1, e1, evs⟩ => ⟨.panicked, Redis.withConn r cl c1, e1, evs⟩
          | ⟨.ok _, c1, e1, evs⟩ =>
              match connection.getStatusCodeReply c1 e1 with
              | ⟨res, c2, e2, evs2⟩ =>
                  ⟨res, Redis.withConn r cl c2, e2, evs ++ evs2⟩

/-- Get from redis.go lines 130-140: mode check, then the GET builder, then
the bulk accessor. -/
def Redis.Get (r : Redis) (key : String) (e : Env) : RStep String :=
  match Redis.checkIsInMultiOrPipeline r with
  | .err er => ⟨.err er, r, e, []⟩
  | .panicked => ⟨.panicked, r, e, []⟩
  | .ok _ =>
      match r.client with
      | none => ⟨.panicked, r, e, []⟩
      | some cl =>
          match Client.get cl key e with
          | ⟨.err er, c1, e1, evs⟩ => ⟨.err er, Redis.withConn r cl c1, e1, evs⟩
          | ⟨.panicked, c1, e1, evs⟩ => ⟨.panicked, Redis.withConn r cl c1, e1, evs⟩
          | ⟨.ok _, c1, e1, evs⟩ =>
              match connection.getBulkReply c1 e1 with
              | ⟨res, c2, e2, evs2⟩ =>
                  ⟨res, Redis.withConn r cl c2, e2, evs ++ evs2⟩

/-- Incr from redis.go lines 450-460: mode check, then the INCR builder,
then the integer accessor. -/
def Redis.Incr (r : Redis) (key : String) (e : Env) : RStep Int :=
  match Redis.checkIsInMultiOrPipeline r with
  | .err er => ⟨.err er, r, e, []⟩
  | .panicked => ⟨.panicked, r, e, []⟩
  | .ok _ =>
      match r.client with
      | none => ⟨.panicked, r, e, []⟩
      | some cl =>
          match Client.incr cl key e with
          | ⟨.err er, c1, e1, evs⟩ => ⟨.err er, Redis.withConn r cl c1, e1, evs⟩
          | ⟨.panicked, c1, e1, evs⟩ => ⟨.panicked, Redis.withConn r cl c1, e1, evs⟩
          | ⟨.ok _, c1, e1, evs⟩ =>
              match connection.getIntegerReply c1 e1 with
              | ⟨res, c2, e2, evs2⟩ =>
                  ⟨res, Redis.withConn r cl c2, e2, evs ++ evs2⟩

/-- HSet from redis.go lines 513-523: mode check, then the HSET builder,
then the integer accessor. -/
def Redis.HSet (r : Redis) (key field value : String) (e : Env) : RStep Int :=
  match Redis.checkIsInMultiOrPipeline r with
  | .err er => ⟨.err er, r, e, []⟩
  | .panicked => ⟨.panicked, r, e, []⟩
  | .ok _ =>
      match r.client with
      | none => ⟨.panicked, r, e, []⟩
      | some cl =>
          match Client.hset cl key field value e with
          | ⟨.err er, c1, e1, evs⟩ => ⟨.err er, Redis.withConn r cl c1, e1, evs⟩
          | ⟨.panicked, c1, e1, evs⟩ => ⟨.panicked, Redis.withConn r cl c1, e1, evs⟩
          | ⟨.ok _, c1, e1, evs⟩ =>
              match connection.getIntegerReply c1 e1 with
              | ⟨res, c2, e2, evs2⟩ =>
                  ⟨res, Redis.withConn r cl c2, e2, evs ++ evs2⟩

/-- Modelled from the spec: BITCOUNT command builder, see `Client.set`. -/
def Client.bitcount (cl : Client) (key : String) (e : Env) : Step Unit :=
  connection.sendCommand "BITCOUNT" [bytesOfString key] cl.connection e

/-- BitCount from redis.go lines 2067-2073: unlike Set or Get there is no
checkIsInMultiOrPipeline guard; the builder and the integer accessor run
whatever the multi or pipeline state. -/
def Redis.BitCount (r : Redis) (key : String) (e : Env) : RStep Int :=
  match r.client with
  | none => ⟨.panicked, r, e, []⟩
  | some cl =>
      match Client.bitcount cl key e with
      | ⟨.err er, c1, e1, evs⟩ => ⟨.err er, Redis.withConn r cl c1, e1, evs⟩
      | ⟨.panicked, c1, e1, evs⟩ => ⟨.panicked, Redis.withConn r cl c1, e1, evs⟩
      | ⟨.ok _, c1, e1, evs⟩ =>
          match connection.getIntegerReply c1 e1 with
          | ⟨res, c2, e2, evs2⟩ => ⟨res, Redis.withConn r cl c2, e2, evs ++ evs2⟩

/-- Observable routing decision of Redis.Close; the error values returned
by the pool methods and by the socket close are not modelled, the pool
internals being outside src. -/
inductive CloseAction where
  | noop
  | panicked
  | returnedBroken
  | returnedHealthy
  | closedSocket
deriving DecidableEq, Repr

/-- Close from redis.go lines 41-58: a nil receiver is a no-op; with a pool
attached, route to returnBrokenResourceObject or returnResourceObject by
the broken flag and never touch the socket; without a pool, truly close the
client socket. -/
def Redis.Close (ro : Option Redis) : CloseAction × Option Redis :=
  match ro with
  | none => (.noop, none)
  | some r =>
      match r.dataSource with
      | some _ =>
          match r.client with
          | none => (.panicked, some r)
          | some cl =>
              if Client.broken cl then (.returnedBroken, some r)
              else (.returnedHealthy, some r)
      | none =>
          match r.client with
          | some cl => (.closedSocket, some { r with client := some (Client.close cl) })
          | none => (.noop, some r)

/-! Concrete fixtures used by witnesses and counterexamples. -/

/-- A healthy established connection with no outstanding commands. -/
def connectedConn : connection :=
  { host := "localhost", port := 6379, connectionTimeout := 1, soTimeout := 1,
    socket := some 0, protocol := some 0, broken := false, pipelinedCommands := 0 }

/-- The same connection after its broken flag has been set. -/
def brokenConn : connection :=
  { connectedConn with broken := true }

/-- An oracle with no recorded network behaviour. -/
def envEmpty : Env :=
  { dials := [], deadlines := [], sends := [], flushes := [], reads := [] }

/-- An oracle in which the single next flush succeeds. -/
def envFlushOkOnly : Env :=
  { envEmpty with flushes := [none] }

/-- An oracle for one successful flush followed by one decoded status. -/
def envGetOne : Env :=
  { envEmpty with flushes := [none], reads := [Except.ok (GoVal.str "OK")] }

/-! Small helper lemmas about the embedding. -/

/-- Updating the counter field with its current value is the identity. -/
theorem conn_update_self (c : connection) (n : Int) (h : c.pipelinedCommands = n) :
    ({ c with pipelinedCommands := n }) = c := by
  cases c
  subst h
  rfl

/-- readProtocolWithCheckingBroken never changes the pipelined counter. -/
theorem readProtocol_counter (c : connection) (e : Env) :
    (connection.readProtocolWithCheckingBroken c e).conn.pipelinedCommands
      = c.pipelinedCommands := by
  unfold connection.readProtocolWithCheckingBroken takeD
  split
  · rfl
  · split
    · rfl
    · split <;> rfl

/-- connect never changes the pipelined counter. -/
theorem connect_counter (c : connection) (e : Env) :
    (connection.connect c e).conn.pipelinedCommands = c.pipelinedCommands := by
  unfold connection.connect takeD
  split
  · rfl
  · split
    · rfl
    · split <;> rfl

/-- flush never changes the pipelined counter. -/
theorem flush_counter (c : connection) (e : Env) :
    (connection.flush c e).conn.pipelinedCommands = c.pipelinedCommands := by
  unfold connection.flush takeD
  split
  · rfl
  · split <;> rfl

/-! Claim theorems. -/

/-- C1 counterexample: on a connection whose broken flag is true, flush does
not fail immediately: with a working socket it succeeds and performs a
network write, so not every operation is fenced by the broken flag. -/
theorem c1_flush_ignores_broken_cex :
    brokenConn.broken = true ∧
    (connection.flush brokenConn envFlushOkOnly).res = Res.ok () ∧
    (connection.flush brokenConn envFlushOkOnly).events = [NetEvent.flushWrite] :=
  ⟨rfl, rfl, rfl⟩

/-- C1 (amended): once the broken flag is set, readProtocolWithCheckingBroken
(and hence every reply read going through it) fails immediately with a
connection error, leaving the connection and the oracle untouched and
performing no network I/O; sendCommand and flush do not consult the flag. -/
theorem c1_read_fencing_amended (c : connection) (e : Env) (h : c.broken = true) :
    connection.readProtocolWithCheckingBroken c e =
      ⟨Res.err (GoError.connect "attempting to read from a broken connection"), c, e, []⟩ := by
  simp [connection.readProtocolWithCheckingBroken, h]

/-- C1 witness: the amended fencing theorem applied to a concrete broken
connection. -/
theorem c1_read_fencing_witness :
    brokenConn.broken = true ∧
    connection.readProtocolWithCheckingBroken brokenConn envFlushOkOnly =
      ⟨Res.err (GoError.connect "attempting to read from a broken connection"),
        brokenConn, envFlushOkOnly, []⟩ :=
  ⟨rfl, c1_read_fencing_amended brokenConn envFlushOkOnly rfl⟩

/-- C2 counterexample: getOne called on a connection with no outstanding
command (counter zero) drives pipelinedCommands to -1, so the counter does
become negative. -/
theorem c2_counter_goes_negative_cex :
    connectedConn.pipelinedCommands = 0 ∧
    (connection.getOne connectedConn envGetOne).conn.pipelinedCommands = -1 :=
  ⟨rfl, by decide⟩

/-- C8: connect is idempotent: on a connection that already holds a socket
it returns nil and leaves every field, the oracle and the event trace
untouched: no redial and no deadline reset. -/
theorem c8_connect_idempotent (c : connection) (e : Env) (s : Nat) (h : c.socket = some s) :
    connection.connect c e = ⟨Res.ok (), c, e, []⟩ := by
  simp [connection.connect, connection.isConnected, h]

/-- C8 witness: idempotence at a concrete established connection. -/
theorem c8_connect_idempotent_witness :
    connectedConn.socket = some 0 ∧
    connection.connect connectedConn envEmpty = ⟨Res.ok (), connectedConn, envEmpty, []⟩ :=
  ⟨rfl, c8_connect_idempotent connectedConn envEmpty 0 rfl⟩

/-- C9: newConnection substitutes the default host, port and timeouts for
zero-valued inputs and always starts unbroken, with no socket, no protocol
streams and a zero pipelined counter. -/
theorem c9_newConnection_defaults : ∀ (h : String) (p ct st : Int),
    newConnection h p ct st =
      { host := if h = "" then defaultHost else h
        port := if p = 0 then defaultPort else p
        connectionTimeout := if ct = 0 then defaultTimeout else ct
        soTimeout := if st = 0 then defaultTimeout else st
        socket := none
        protocol := none
        broken := false
        pipelinedCommands := 0 } :=
  fun _ _ _ _ => rfl

/-- Reply shapes the status accessor accepts without a data error. -/
def GoVal.isStatusShape : GoVal → Bool
  | GoVal.nil => true
  | GoVal.str _ => true
  | GoVal.bytes _ => true
  | _ => false

/-- Reply shapes the integer accessor accepts without its -1 fallback. -/
def GoVal.isIntShape : GoVal → Bool
  | GoVal.nil => true
  | GoVal.int64 _ => true
  | _ => false

/-- An oracle for one successful flush followed by one decoded empty array. -/
def envGetArr : Env :=
  { envEmpty with flushes := [none], reads := [Except.ok (GoVal.arr [])] }

/-- C3 counterexample: with a decoded status string where an integer was
expected, getIntegerReply silently substitutes the default -1 with no
error, so not every typed accessor reports a tag mismatch as a DataError. -/
theorem c3_integer_silent_default_cex :
    (connection.getOne connectedConn envGetOne).res = Res.ok (GoVal.str "OK") ∧
    (connection.getIntegerReply connectedConn envGetOne).res = Res.ok (-1) :=
  ⟨rfl, rfl⟩

/-- C3 (amended): on a decoded reply whose tag mismatches, only the status
accessor reports a DataError; the integer accessor silently returns -1 with
no error, and the multi-bulk and integer-multi-bulk accessors panic on an
unchecked type assertion. -/
theorem c3_accessor_mismatch_amended (c : connection) (e : Env) (v : GoVal)
    (h : (connection.getOne c e).res = Res.ok v) :
    (v.isStatusShape = false →
      ∃ m, (connection.getStatusCodeReply c e).res = Res.err (GoError.data m))
    ∧ (v.isIntShape = false →
      (connection.getIntegerReply c e).res = Res.ok (-1))
    ∧ (∀ s, v = GoVal.str s →
      (connection.getBinaryMultiBulkReply c e).res = Res.panicked
      ∧ (connection.getIntegerMultiBulkReply c e).res = Res.panicked) := by
  rcases hg : connection.getOne c e with ⟨res, c1, e1, evs⟩
  have h' : res = Res.ok v := by rw [hg] at h; exact h
  subst h'
  refine ⟨?_, ?_, ?_⟩
  · intro hs
    cases v with
    | str s => simp [GoVal.isStatusShape] at hs
    | bytes bs => simp [GoVal.isStatusShape] at hs
    | nil => simp [GoVal.isStatusShape] at hs
    | int64 i =>
        exact ⟨dataErrMsg (GoVal.int64 i), by simp [connection.getStatusCodeReply, hg]⟩
    | byteV b =>
        exact ⟨dataErrMsg (GoVal.byteV b), by simp [connection.getStatusCodeReply, hg]⟩
    | arr vs =>
        exact ⟨dataErrMsg (GoVal.arr vs), by simp [connection.getStatusCodeReply, hg]⟩
  · intro hi
    cases v with
    | nil => simp [GoVal.isIntShape] at hi
    | int64 i => simp [GoVal.isIntShape] at hi
    | str s => simp [connection.getIntegerReply, hg]
    | bytes bs => simp [connection.getIntegerReply, hg]
    | byteV b => simp [connection.getIntegerReply, hg]
    | arr vs => simp [connection.getIntegerReply, hg]
  · intro s hv
    subst hv
    exact ⟨by simp [connection.getBinaryMultiBulkReply, hg],
      by simp [connection.getIntegerMultiBulkReply, hg]⟩

/-- C3 witness: the amended statement applied at a decoded empty array,
where the integer accessor hands back -1. -/
theorem c3_accessor_mismatch_witness :
    (connection.getOne connectedConn envGetArr).res = Res.ok (GoVal.arr []) ∧
    (connection.getIntegerReply connectedConn envGetArr).res = Res.ok (-1) :=
  ⟨rfl, (c3_accessor_mismatch_amended connectedConn envGetArr (GoVal.arr []) rfl).2.1 rfl⟩

/-- sendCommand either succeeds and increments the pipelined counter by
exactly one, or does not succeed and leaves the counter unchanged. -/
theorem sendCommand_counter_cases (cmd : String) (args : List (List Nat)) (c : connection) (e : Env) :
    ((connection.sendCommand cmd args c e).res = Res.ok ()
      ∧ (connection.sendCommand cmd args c e).conn.pipelinedCommands = c.pipelinedCommands + 1)
    ∨ ((connection.sendCommand cmd args c e).res ≠ Res.ok ()
      ∧ (connection.sendCommand cmd args c e).conn.pipelinedCommands = c.pipelinedCommands) := by
  rcases hcc : connection.connect c e with ⟨cres, c1, e1, evs⟩
  have hpc : c1.pipelinedCommands = c.pipelinedCommands := by
    have h := connect_counter c e
    rw [hcc] at h
    exact h
  cases cres with
  | ok a =>
      cases hp : c1.protocol with
      | none =>
          right
          constructor <;> simp [connection.sendCommand, hcc, hp, hpc]
      | some pr =>
          rcases hsen : e1.sends with _ | ⟨s0, ss⟩
          · right
            constructor <;> simp [connection.sendCommand, hcc, hp, hsen, takeD, hpc]
          · cases s0 with
            | none =>
                left
                constructor <;> simp [connection.sendCommand, hcc, hp, hsen, takeD, hpc]
            | some er =>
                right
                constructor <;> simp [connection.sendCommand, hcc, hp, hsen, takeD, hpc]
  | err er =>
      right
      constructor <;> simp [connection.sendCommand, hcc, hpc]
  | panicked =>
      right
      constructor <;> simp [connection.sendCommand, hcc, hpc]

/-- C7: sendCommand is atomic on connect failure: with no established
socket and a failing dial it returns a connection error and leaves the
whole connection (counter included) unchanged; and in every run the counter
is incremented exactly when the overall call succeeds. -/
theorem c7_sendCommand_atomic (cmd : String) (args : List (List Nat)) (c : connection) (e : Env) :
    (∀ msg ds, c.socket = none → e.dials = Except.error msg :: ds →
      connection.sendCommand cmd args c e =
        ⟨Res.err (GoError.connect msg), c, { e with dials := ds }, [NetEvent.dial]⟩)
    ∧ ((connection.sendCommand cmd args c e).res = Res.ok () →
      (connection.sendCommand cmd args c e).conn.pipelinedCommands = c.pipelinedCommands + 1)
    ∧ (∀ er, (connection.sendCommand cmd args c e).res = Res.err er →
      (connection.sendCommand cmd args c e).conn.pipelinedCommands = c.pipelinedCommands) := by
  refine ⟨?_, ?_, ?_⟩
  · intro msg ds hs hd
    simp [connection.sendCommand, connection.connect, connection.isConnected, hs, hd, takeD]
  · intro hok
    rcases sendCommand_counter_cases cmd args c e with ⟨_, h2⟩ | ⟨h1, _⟩
    · exact h2
    · exact absurd hok h1
  · intro er her
    rcases sendCommand_counter_cases cmd args c e with ⟨h1, _⟩ | ⟨_, h2⟩
    · rw [her] at h1
      exact absurd h1 (by simp)
    · exact h2

/-- A disconnected connection (fresh from newConnection, names aside). -/
def disconnConn : connection :=
  { connectedConn with socket := none, protocol := none }

/-- An oracle whose single dial fails. -/
def envDialFail : Env :=
  { envEmpty with dials := [Except.error "connection refused"] }

/-- C7 witness: the atomicity theorem applied to a concrete failing dial. -/
theorem c7_sendCommand_atomic_witness :
    disconnConn.socket = none ∧
    connection.sendCommand "SET" [] disconnConn envDialFail =
      ⟨Res.err (GoError.connect "connection refused"), disconnConn,
        { envDialFail with dials := [] }, [NetEvent.dial]⟩ :=
  ⟨rfl, (c7_sendCommand_atomic "SET" [] disconnConn envDialFail).1 "connection refused" [] rfl rfl⟩

/-- C5: Close routes by pool and broken flag: with no pool attached it
truly closes the client socket; with a pool it never touches the socket and
hands the client to the broken-return path exactly when the broken flag is
set, and to the healthy-return path otherwise. -/
theorem c5_close_routing (r : Redis) (cl : Client) (h : r.client = some cl) :
    (r.dataSource = none →
      Redis.Close (some r) =
        (CloseAction.closedSocket, some { r with client := some (Client.close cl) })
      ∧ (Client.close cl).connection.socket = none)
    ∧ (∀ p, r.dataSource = some p →
      (cl.connection.broken = true →
        Redis.Close (some r) = (CloseAction.returnedBroken, some r))
      ∧ (cl.connection.broken = false →
        Redis.Close (some r) = (CloseAction.returnedHealthy, some r))) := by
  constructor
  · intro hds
    constructor
    · simp [Redis.Close, hds, h]
    · rfl
  · intro p hds
    constructor
    · intro hb
      simp [Redis.Close, hds, h, Client.broken, hb]
    · intro hb
      simp [Redis.Close, hds, h, Client.broken, hb]

/-- A Redis handle with no pool attached. -/
def redisNoPool : Redis :=
  { client := some { connection := connectedConn, isInMulti := false },
    pipeline := none, transaction := none, dataSource := none }

/-- C5 witness: the routing theorem applied to a concrete pool-less
client, whose socket is then truly closed. -/
theorem c5_close_routing_witness :
    redisNoPool.dataSource = none ∧
    Redis.Close (some redisNoPool) =
      (CloseAction.closedSocket,
        some { redisNoPool with
                client := some (Client.close { connection := connectedConn, isInMulti := false }) }) :=
  ⟨rfl, ((c5_close_routing redisNoPool
    { connection := connectedConn, isInMulti := false } rfl).1 rfl).1⟩

/-- A Redis handle whose client sits between MULTI and EXEC. -/
def redisInMulti : Redis :=
  { client := some { connection := connectedConn, isInMulti := true },
    pipeline := none, transaction := none, dataSource := none }

/-- Oracle: one good send, one good flush and one decoded integer reply. -/
def envIntReply : Env :=
  { envEmpty with
    sends := [none]
    flushes := [none]
    reads := [Except.ok (GoVal.int64 5)] }

/-- C4 counterexample: BitCount is a simple non-batched command method, yet
on a client in MULTI state it does not return a DataError: it sends
BITCOUNT on the connection, flushes, reads a reply and succeeds, so not
every simple command method is guarded by the mode check. -/
theorem c4_unguarded_bitcount_cex :
    ({ connection := connectedConn, isInMulti := true } : Client).isInMulti = true ∧
    redisInMulti.client = some { connection := connectedConn, isInMulti := true } ∧
    (Redis.BitCount redisInMulti "k" envIntReply).res = Res.ok 5 ∧
    (Redis.BitCount redisInMulti "k" envIntReply).events =
      [NetEvent.encodeWrite "BITCOUNT" [bytesOfString "k"],
        NetEvent.flushWrite, NetEvent.readReply] :=
  ⟨rfl, rfl, rfl, rfl⟩

/-- C4 (amended): the guarded simple command methods (Set, Get, Incr, HSet
and the other methods that call checkIsInMultiOrPipeline) return a
DataError before any network interaction when the client is in multi or the
pipeline holds unread responses, leaving the Redis value, the oracle and
the event trace untouched; but the guard is not universal: BitCount (like
SetBit, GetBit, BitCountRange, BitPos and others) performs no mode check
and sends on the connection even in multi state, returning the integer
reply. -/
theorem c4_mode_check_amended (r : Redis) (cl : Client) (e : Env) (key value field : String)
    (s pr : Nat) (i : Int)
    (ss : List (Option GoError)) (fs : List (Option String)) (rs : List (Except GoError GoVal))
    (hc : r.client = some cl) :
    ((cl.isInMulti = true ∨ ∃ p, r.pipeline = some p ∧ 0 < p.pipelinedResponses.length) →
      (∃ m, (Redis.Set r key value e).res = Res.err (GoError.data m))
      ∧ (Redis.Set r key value e).redis = r
      ∧ (Redis.Set r key value e).events = []
      ∧ (Redis.Set r key value e).env = e
      ∧ (∃ m, (Redis.Get r key e).res = Res.err (GoError.data m))
      ∧ (Redis.Get r key e).redis = r
      ∧ (Redis.Get r key e).events = []
      ∧ (Redis.Get r key e).env = e
      ∧ (∃ m, (Redis.Incr r key e).res = Res.err (GoError.data m))
      ∧ (Redis.Incr r key e).redis = r
      ∧ (Redis.Incr r key e).events = []
      ∧ (Redis.Incr r key e).env = e
      ∧ (∃ m, (Redis.HSet r key field value e).res = Res.err (GoError.data m))
      ∧ (Redis.HSet r key field value e).redis = r
      ∧ (Redis.HSet r key field value e).events = []
      ∧ (Redis.HSet r key field value e).env = e)
    ∧ (cl.isInMulti = true →
      cl.connection.socket = some s →
      cl.connection.protocol = some pr →
      cl.connection.broken = false →
      e.sends = none :: ss →
      e.flushes = none :: fs →
      e.reads = Except.ok (GoVal.int64 i) :: rs →
      (Redis.BitCount r key e).res = Res.ok i
      ∧ (Redis.BitCount r key e).events =
          [NetEvent.encodeWrite "BITCOUNT" [bytesOfString key],
            NetEvent.flushWrite, NetEvent.readReply]) := by
  constructor
  · intro h
    have hck : ∃ m, Redis.checkIsInMultiOrPipeline r = Res.err (GoError.data m) := by
      rcases h with hm | ⟨p, hp, hlen⟩
      · exact ⟨"cannot use Redis when in Multi. Please use Transaction or reset redis state",
          by simp [Redis.checkIsInMultiOrPipeline, hc, hm]⟩
      · cases him : cl.isInMulti with
        | true =>
            exact ⟨"cannot use Redis when in Multi. Please use Transaction or reset redis state",
              by simp [Redis.checkIsInMultiOrPipeline, hc, him]⟩
        | false =>
            exact ⟨"cannot use Redis when in Pipeline. Please use Pipeline or reset redis state",
              by simp [Redis.checkIsInMultiOrPipeline, hc, him, hp, hlen]⟩
    obtain ⟨m, hck⟩ := hck
    refine ⟨⟨m, ?_⟩, ?_, ?_, ?_, ⟨m, ?_⟩, ?_, ?_, ?_, ⟨m, ?_⟩, ?_, ?_, ?_, ⟨m, ?_⟩, ?_, ?_, ?_⟩ <;>
      simp [Redis.Set, Redis.Get, Redis.Incr, Redis.HSet, hck]
  · intro him hsock hprot hbrok hsend hfl hrd
    refine ⟨?_, ?_⟩ <;>
      simp [Redis.BitCount, hc, Client.bitcount, connection.sendCommand, connection.connect,
        connection.isConnected, hsock, hprot, hsend, connection.getIntegerReply,
        connection.getOne, connection.flush, hfl, takeD,
        connection.readProtocolWithCheckingBroken, hbrok, hrd]

/-- C4 witness: the amended theorem applied to a concrete client in multi
state: Set is rejected with a DataError and an empty trace while BitCount
sends, reads and succeeds. -/
theorem c4_mode_check_amended_witness :
    (∃ m, (Redis.Set redisInMulti "k" "v" envIntReply).res = Res.err (GoError.data m)) ∧
    (Redis.Set redisInMulti "k" "v" envIntReply).events = [] ∧
    (Redis.BitCount redisInMulti "k" envIntReply).res = Res.ok 5 ∧
    (Redis.BitCount redisInMulti "k" envIntReply).events =
      [NetEvent.encodeWrite "BITCOUNT" [bytesOfString "k"],
        NetEvent.flushWrite, NetEvent.readReply] := by
  have h := c4_mode_check_amended redisInMulti
    { connection := connectedConn, isInMulti := true } envIntReply "k" "v" "f"
    0 0 5 [] [] [] rfl
  have h1 := h.1 (Or.inl rfl)
  have h2 := h.2 rfl rfl rfl rfl rfl rfl rfl
  exact ⟨h1.1, h1.2.2.1, h2.1, h2.2⟩

/-- stepCons passes the connection of the continuation through unchanged. -/
theorem stepCons_conn (entry : Except GoError GoVal) (evs : List NetEvent)
    (s : Step (List (Except GoError GoVal))) : (stepCons entry evs s).conn = s.conn := by
  rcases s with ⟨r, c2, e2, evs2⟩
  cases r <;> rfl

/-- The drain loop never drives the counter below zero when the floor is
nonnegative: the guard is re-checked before each decrement. -/
theorem getAllLoop_counter (fuel : Nat) : ∀ (num : Int) (c : connection) (e : Env),
    0 ≤ num → 0 ≤ c.pipelinedCommands →
    0 ≤ (connection.getAllLoop fuel num c e).conn.pipelinedCommands := by
  induction fuel with
  | zero =>
      intro num c e h0 hc
      simpa [connection.getAllLoop] using hc
  | succ f ih =>
      intro num c e h0 hc
      unfold connection.getAllLoop
      split
      case isTrue hlt =>
        rcases hr : connection.readProtocolWithCheckingBroken c e with ⟨rres, c1, e1, evs⟩
        have hc1 : c1.pipelinedCommands = c.pipelinedCommands := by
          have h := readProtocol_counter c e
          rw [hr] at h
          exact h
        have hdec : 0 ≤ ({ c1 with pipelinedCommands := c1.pipelinedCommands - 1 } : connection).pipelinedCommands := by
          show (0 : Int) ≤ c1.pipelinedCommands - 1
          omega
        cases rres with
        | panicked =>
            show 0 ≤ c1.pipelinedCommands
            omega
        | ok v =>
            show 0 ≤ (stepCons (Except.ok v) evs
              (connection.getAllLoop f num
                { c1 with pipelinedCommands := c1.pipelinedCommands - 1 } e1)).conn.pipelinedCommands
            rw [stepCons_conn]
            exact ih num { c1 with pipelinedCommands := c1.pipelinedCommands - 1 } e1 h0 hdec
        | err er =>
            show 0 ≤ (stepCons (Except.error er) evs
              (connection.getAllLoop f num
                { c1 with pipelinedCommands := c1.pipelinedCommands - 1 } e1)).conn.pipelinedCommands
            rw [stepCons_conn]
            exact ih num { c1 with pipelinedCommands := c1.pipelinedCommands - 1 } e1 h0 hdec
      case isFalse => simpa using hc

/-- C2 (amended): sendCommand and a default getAll drain preserve a
nonnegative pipelined counter, but getOne (and getObjectMultiBulkReply)
decrement unconditionally after a successful flush, so a reply accessor
called without a matching prior send drives the counter negative. -/
theorem c2_counter_amended (cmd : String) (args : List (List Nat)) (c : connection) (e : Env)
    (h : 0 ≤ c.pipelinedCommands) :
    0 ≤ (connection.sendCommand cmd args c e).conn.pipelinedCommands
    ∧ 0 ≤ (connection.getAll none c e).conn.pipelinedCommands := by
  constructor
  · rcases sendCommand_counter_cases cmd args c e with ⟨_, h2⟩ | ⟨_, h2⟩ <;> rw [h2] <;> omega
  · unfold connection.getAll
    rcases hf : connection.flush c e with ⟨fres, c1, e1, evs⟩
    have hc1 : c1.pipelinedCommands = c.pipelinedCommands := by
      have hh := flush_counter c e
      rw [hf] at hh
      exact hh
    cases fres with
    | ok a =>
        simp only [hf, Option.getD_none, sub_zero, withEvents]
        exact getAllLoop_counter c1.pipelinedCommands.toNat 0 c1 e1 le_rfl (by omega)
    | err er => simp [hf]; omega
    | panicked => simp [hf]; omega

/-- An oracle with one good send and one good flush. -/
def envSendFlushOk : Env :=
  { envEmpty with sends := [none], flushes := [none] }

/-- C2 witness: the preservation theorem applied to a concrete healthy
connection holding no outstanding commands. -/
theorem c2_counter_amended_witness :
    (0 : Int) ≤ connectedConn.pipelinedCommands ∧
    (0 ≤ (connection.sendCommand "PING" [] connectedConn envSendFlushOk).conn.pipelinedCommands
      ∧ 0 ≤ (connection.getAll none connectedConn envSendFlushOk).conn.pipelinedCommands) :=
  ⟨by decide, c2_counter_amended "PING" [] connectedConn envSendFlushOk (by decide)⟩

/-- Full characterization of the drain loop on a healthy connection: with
the counter at N, at least N supplied reads and no connection error among
the first N of them, the loop collects exactly the first N read results (a
data error is captured inline at its position) in submission order,
consumes them from the oracle, zeroes the counter and reads N times. -/
theorem getAllLoop_spec (N : Nat) :
    ∀ (c : connection) (e : Env) (pr : Nat),
      c.broken = false → c.protocol = some pr →
      c.pipelinedCommands = (N : Int) →
      N ≤ e.reads.length →
      (∀ x ∈ e.reads.take N, ∀ m, x ≠ Except.error (GoError.connect m)) →
      connection.getAllLoop N 0 c e =
        ⟨Res.ok (e.reads.take N),
          { c with pipelinedCommands := 0 },
          { e with reads := e.reads.drop N },
          List.replicate N NetEvent.readReply⟩ := by
  induction N with
  | zero =>
      intro c e pr hb hp hn hlen hcerr
      have h0 : c.pipelinedCommands = 0 := by exact_mod_cast hn
      rw [conn_update_self c 0 h0]
      simp [connection.getAllLoop]
  | succ n ih =>
      intro c e pr hb hp hn hlen hcerr
      have hpos : (0 : Int) < c.pipelinedCommands := by
        rw [hn]
        exact_mod_cast Nat.succ_pos n
      rcases hre : e.reads with _ | ⟨x, rest⟩
      · rw [hre] at hlen
        simp at hlen
      · have hxne : ∀ m, x ≠ Except.error (GoError.connect m) := by
          intro m
          apply hcerr
          rw [hre]
          simp
        have hrest : ∀ y ∈ rest.take n, ∀ m, y ≠ Except.error (GoError.connect m) := by
          intro y hy m
          apply hcerr
          rw [hre, List.take_succ_cons]
          exact List.mem_cons_of_mem x hy
        have hlen' : n ≤ rest.length := by
          rw [hre] at hlen
          simpa using hlen
        have hc' : ({ c with pipelinedCommands := c.pipelinedCommands - 1 } : connection).pipelinedCommands = (n : Int) := by
          show c.pipelinedCommands - 1 = (n : Int)
          rw [hn]
          push_cast
          ring
        simp only [connection.getAllLoop]
        rw [if_pos hpos]
        cases x with
        | ok v =>
            have hread : connection.readProtocolWithCheckingBroken c e
                = ⟨Res.ok v, c, { e with reads := rest }, [NetEvent.readReply]⟩ := by
              simp [connection.readProtocolWithCheckingBroken, hb, hp, hre, takeD]
            rw [hread]
            have hrec := ih { c with pipelinedCommands := c.pipelinedCommands - 1 }
              { e with reads := rest } pr hb hp hc' hlen' hrest
            show stepCons (Except.ok v) [NetEvent.readReply]
                (connection.getAllLoop n 0
                  { c with pipelinedCommands := c.pipelinedCommands - 1 }
                  { e with reads := rest }) = _
            rw [hrec]
            simp [stepCons, hre, List.take_succ_cons, List.drop_succ_cons,
              List.replicate_succ, List.singleton_append]
        | error er =>
            cases er with
            | connect m => exact absurd rfl (hxne m)
            | data m =>
                have hread : connection.readProtocolWithCheckingBroken c e
                    = ⟨Res.err (GoError.data m), c, { e with reads := rest }, [NetEvent.readReply]⟩ := by
                  simp [connection.readProtocolWithCheckingBroken, hb, hp, hre, takeD]
                rw [hread]
                have hrec := ih { c with pipelinedCommands := c.pipelinedCommands - 1 }
                  { e with reads := rest } pr hb hp hc' hlen' hrest
                show stepCons (Except.error (GoError.data m)) [NetEvent.readReply]
                    (connection.getAllLoop n 0
                      { c with pipelinedCommands := c.pipelinedCommands - 1 }
                      { e with reads := rest }) = _
                rw [hrec]
                simp [stepCons, hre, List.take_succ_cons, List.drop_succ_cons,
                  List.replicate_succ, List.singleton_append]

/-- C6: draining N sent-but-unread commands with getAll on a healthy
connection yields exactly the N read results in FIFO submission order, a
data error for one reply being captured inline at its position without
aborting the rest, getAll itself succeeding; the counter ends at zero and
the trace is one flush followed by N reads. -/
theorem c6_getAll_fifo (N : Nat) (c : connection) (e : Env) (pr : Nat)
    (fs : List (Option String))
    (hb : c.broken = false) (hp : c.protocol = some pr)
    (hn : c.pipelinedCommands = (N : Int))
    (hfl : e.flushes = none :: fs)
    (hlen : N ≤ e.reads.length)
    (hcerr : ∀ x ∈ e.reads.take N, ∀ m, x ≠ Except.error (GoError.connect m)) :
    connection.getAll none c e =
      ⟨Res.ok (e.reads.take N),
        { c with pipelinedCommands := 0 },
        { e with flushes := fs, reads := e.reads.drop N },
        NetEvent.flushWrite :: List.replicate N NetEvent.readReply⟩ := by
  have hflush : connection.flush c e
      = ⟨Res.ok (), c, { e with flushes := fs }, [NetEvent.flushWrite]⟩ := by
    simp [connection.flush, hp, hfl, takeD]
  have hrec := getAllLoop_spec N c { e with flushes := fs } pr hb hp hn hlen hcerr
  simp only [connection.getAll, Option.getD_none, sub_zero]
  rw [hflush]
  show withEvents [NetEvent.flushWrite]
      (connection.getAllLoop c.pipelinedCommands.toNat 0 c { e with flushes := fs }) = _
  have ht : c.pipelinedCommands.toNat = N := by
    rw [hn]
    exact Int.toNat_natCast N
  rw [ht, hrec]
  simp [withEvents, List.singleton_append]

/-- A connection with two commands sent but unread. -/
def connTwo : connection :=
  { connectedConn with pipelinedCommands := 2 }

/-- Oracle: one good flush, then a status reply and then a decode error. -/
def envTwo : Env :=
  { envEmpty with
    flushes := [none]
    reads := [Except.ok (GoVal.str "OK"), Except.error (GoError.data "bad")] }

/-- C6 witness: draining two commands, the second of which decodes with an
error, yields both entries in order and getAll succeeds. -/
theorem c6_getAll_fifo_witness :
    connTwo.pipelinedCommands = (2 : Int) ∧
    connection.getAll none connTwo envTwo =
      ⟨Res.ok [Except.ok (GoVal.str "OK"), Except.error (GoError.data "bad")],
        { connTwo with pipelinedCommands := 0 },
        { envTwo with flushes := [], reads := [] },
        NetEvent.flushWrite :: List.replicate 2 NetEvent.readReply⟩ := by
  have h := c6_getAll_fifo 2 connTwo envTwo 0 [] rfl rfl rfl rfl (by simp [envTwo])
    (by
      intro x hx m
      rcases (by simpa [envTwo] using hx : x = Except.ok (GoVal.str "OK")
          ∨ x = Except.error (GoError.data "bad")) with h1 | h1 <;> subst h1 <;> simp)
  exact ⟨rfl, h⟩

/-- C10: the bulk accessors collapse the protocol null into the empty
value: on a decoded nil reply getBinaryBulkReply returns the empty byte
slice and getBulkReply the empty string, both with no error, and Redis.Get
answers the empty string for a null bulk exactly as it does for an empty
one, so its caller cannot tell an absent key from an empty value. -/
theorem c10_null_collapses (r : Redis) (cl : Client) (e : Env) (key : String)
    (s pr : Nat) (v : GoVal)
    (ss : List (Option GoError)) (fs : List (Option String)) (rs : List (Except GoError GoVal))
    (hc : r.client = some cl) (hm : cl.isInMulti = false) (hpl : r.pipeline = none)
    (hs : cl.connection.socket = some s) (hp : cl.connection.protocol = some pr)
    (hb : cl.connection.broken = false)
    (hsend : e.sends = none :: ss) (hfl : e.flushes = none :: fs)
    (hrd : e.reads = Except.ok v :: rs)
    (hv : v = GoVal.nil ∨ v = GoVal.bytes []) :
    (connection.getBinaryBulkReply cl.connection e).res = Res.ok []
    ∧ (connection.getBulkReply cl.connection e).res = Res.ok ""
    ∧ (Redis.Get r key e).res = Res.ok "" := by
  rcases hv with hv | hv <;> subst hv <;> refine ⟨?_, ?_, ?_⟩ <;>
    simp [Redis.Get, Redis.checkIsInMultiOrPipeline, hc, hm, hpl, Client.get,
      connection.sendCommand, connection.connect, connection.isConnected, hs, hp,
      connection.getBulkReply, connection.getBinaryBulkReply, connection.getOne,
      connection.flush, hfl, connection.readProtocolWithCheckingBroken, hb, hrd,
      hsend, takeD, stringOfBytes, castBytes]

/-- A Redis handle in plain command mode over the healthy connection. -/
def redisSimple : Redis :=
  { client := some { connection := connectedConn, isInMulti := false },
    pipeline := none, transaction := none, dataSource := none }

/-- Oracle: one good send, one good flush and one decoded protocol null. -/
def envNil : Env :=
  { envEmpty with
    sends := [none]
    flushes := [none]
    reads := [Except.ok GoVal.nil] }

/-- C10 witness: the collapse theorem applied to a concrete null bulk
reply. -/
theorem c10_null_collapses_witness :
    envNil.reads = [Except.ok GoVal.nil] ∧
    (connection.getBinaryBulkReply connectedConn envNil).res = Res.ok [] ∧
    (connection.getBulkReply connectedConn envNil).res = Res.ok "" ∧
    (Redis.Get redisSimple "k" envNil).res = Res.ok "" := by
  have h := c10_null_collapses redisSimple
    { connection := connectedConn, isInMulti := false } envNil "k" 0 0 GoVal.nil [] [] []
    rfl rfl rfl rfl rfl rfl rfl rfl rfl (Or.inl rfl)
  exact ⟨rfl, h.1, h.2.1, h.2.2⟩

end Godis
